import Mathlib

/-!
# Verification of the `speedy_qc` annotation-session model

This file gives a shallow embedding in Lean 4 of the annotation-session core of
the `speedy_qc` repository (module `speedy_qc/main_app.py`, with the bounding-box
geometry from `speedy_qc/graphics.py`), and proves or refutes the specification
claims about it.

Modelling conventions:
* Python `dict`s are modelled as insertion-ordered association lists
  (`PyDict`), with `pySet` reproducing Python's `d[k] = v` (update in place if
  the key exists, append otherwise) and `pyLookup` reproducing `d.get(k)`.
* Python `list` indexing (which admits negative indices) is `pyGet`;
  step-one slices `l[a:]` / `l[:b]` are `pySliceFrom` / `pySliceTo`.
* Machine floats appearing in bounding-box coordinates are modelled as exact
  rationals `ℚ`; the trigonometric rotation of `graphics.py` is modelled over
  an abstract point on the unit circle (see `BoundingBox.rotate` below).
* Fallible operations (Python exceptions such as `IndexError`) return
  `Except String _`.
-/

/-- Equality of `Except` results is decidable componentwise (used to evaluate
the embedded fallible operations on concrete inputs). -/
instance {ε α : Type} [DecidableEq ε] [DecidableEq α] :
    DecidableEq (Except ε α) := fun a b =>
  match a, b with
  | .error e, .error e' =>
      if h : e = e' then isTrue (by rw [h])
      else isFalse (fun hh => h (by cases hh; rfl))
  | .error _, .ok _ => isFalse (fun hh => Except.noConfusion hh)
  | .ok _, .error _ => isFalse (fun hh => Except.noConfusion hh)
  | .ok v, .ok v' =>
      if h : v = v' then isTrue (by rw [h])
      else isFalse (fun hh => h (by cases hh; rfl))

namespace SpeedyQC

/-- Python `dict` with `String` keys: an insertion-ordered association list. -/
abbrev PyDict (α : Type) := List (String × α)

/-- Python `d.get(k)` / `k in d`: first (and in a real dict, only) binding of `k`. -/
def pyLookup {α : Type} (d : PyDict α) (k : String) : Option α :=
  (d.find? (fun p => p.1 = k)).map Prod.snd

/-- Python `d.get(k, dflt)`. -/
def pyGetD {α : Type} (d : PyDict α) (k : String) (dflt : α) : α :=
  (pyLookup d k).getD dflt

/-- Python `d[k] = v`: replace the binding in place if present, else append. -/
def pySet {α : Type} (d : PyDict α) (k : String) (v : α) : PyDict α :=
  if (pyLookup d k).isSome then
    d.map (fun p => if p.1 = k then (k, v) else p)
  else
    d ++ [(k, v)]

/-- The keys of a dict are pairwise distinct (always true of a real Python dict). -/
def UniqKeys {α : Type} (d : PyDict α) : Prop := (d.map Prod.fst).Nodup

instance {α : Type} [DecidableEq α] (d : PyDict α) : Decidable (UniqKeys d) :=
  inferInstanceAs (Decidable (d.map Prod.fst).Nodup)

/-- Python list indexing `l[i]` with negative-index wrap-around; `none` models
`IndexError`. -/
def pyGet {α : Type} (l : List α) (i : Int) : Option α :=
  if 0 ≤ i then
    if h : i.toNat < l.length then some (l.get ⟨i.toNat, h⟩) else none
  else
    if 0 ≤ (l.length : Int) + i then
      if h : ((l.length : Int) + i).toNat < l.length then
        some (l.get ⟨((l.length : Int) + i).toNat, h⟩)
      else none
    else none

/-- Clamp an integer slice endpoint to `[0, len]`, Python slice semantics. -/
def pySliceIdx (len : Nat) (i : Int) : Nat :=
  if i < 0 then ((len : Int) + i).toNat else min i.toNat len

/-- Python `l[a:]`. -/
def pySliceFrom {α : Type} (l : List α) (a : Int) : List α :=
  l.drop (pySliceIdx l.length a)

/-- Python `l[:b]`. -/
def pySliceTo {α : Type} (l : List α) (b : Int) : List α :=
  l.take (pySliceIdx l.length b)

/-- Write every binding of `d` into `init` in order, the
`for k, v in d.items(): acc[k] = v` pattern. -/
def rebuild {α : Type} (init d : PyDict α) : PyDict α :=
  d.foldl (fun acc p => pySet acc p.1 p.2) init


/-! ## Data model

`MainApp` keeps the per-image labelling state in a family of dicts keyed by
filename (`main_app.py`, `__init__`, lines 86-142).  The values below mirror the
dynamic Python values those dicts hold. -/

/-- The values of `self.viewed_values[f]`: Python `False`, `True`, `"FAILED"`. -/
inductive Viewed : Type
  | notViewed
  | viewed
  | failed
deriving DecidableEq, Repr

/-- The values a checkbox entry can hold: the Qt check-state integers `0/1/2`
written by `on_checkbox_changed`, the Python `False` default produced by
`self.checkbox_values[filename].get(cbox, False)`, and the `"FAIL"` sentinel
written for failed records by `create_output_dictionary`. -/
inductive CheckVal : Type
  | num (n : Int)
  | boolFalse
  | fail
deriving DecidableEq, Repr

/-- A `QRectF` as stored/serialised via `rect().getRect()`: `(x, y, w, h)`,
with machine floats modelled as exact rationals. -/
structure Rect : Type where
  x : ℚ
  y : ℚ
  w : ℚ
  h : ℚ
deriving DecidableEq, Repr

/-- The part of the YAML/JSON `config` mapping that the session logic reads
(`load_from_json`, lines 1432-1438, and `create_output_dictionary`). -/
structure Config : Type where
  checkboxes : List String
  radiobuttons : List (String × List String)
  tristateCheckboxes : Bool
  maxBackups : Nat
  backupDir : String
  backupInterval : Nat
  logDir : String
deriving DecidableEq, Repr

/-- One element of the `files` array of the session JSON
(`create_output_dictionary`, lines 1390-1398). -/
structure FileEntry : Type where
  filename : String
  viewed : Viewed
  rotation : Int
  notes : String
  checkboxes : PyDict CheckVal
  bboxes : PyDict (List Rect)
  radiobuttons : PyDict (Option Int)
deriving DecidableEq, Repr

/-- The whole session JSON document (`create_output_dictionary`, lines 1358-1362). -/
structure OutputData : Type where
  imageDirectory : String
  config : Config
  files : List FileEntry
deriving DecidableEq, Repr

/-- The session-relevant state of `MainApp`.  `viewRectItems` is
`self.image_view.rect_items`, the boxes currently attached to the display
(`graphics.py`, `CustomGraphicsView`); rectangles are modelled by their
geometry. -/
structure AppState : Type where
  dirPath : String
  config : Config
  fileList : List String
  currentIndex : Int
  viewedValues : PyDict Viewed
  rotation : PyDict Int
  notes : PyDict String
  checkboxValues : PyDict (PyDict CheckVal)
  radiobuttonValues : PyDict (PyDict (Option Int))
  bboxes : PyDict (PyDict (List Rect))
  viewRectItems : PyDict (List Rect)
deriving DecidableEq, Repr

/-! ## Saving (`create_output_dictionary` / `save_json`, lines 1353-1410) -/

/-- Append one rectangle under a finding, the shared
`if finding in d: d[finding].append(bbox) else: d[finding] = [bbox]` pattern
used by `create_output_dictionary`, `load_bounding_box` and
`CustomGraphicsView.add_bboxes`. -/
def addBox (acc : PyDict (List Rect)) (finding : String) (r : Rect) :
    PyDict (List Rect) :=
  match pyLookup acc finding with
  | some l => pySet acc finding (l ++ [r])
  | none => pySet acc finding [r]

/-- Flatten a finding-to-rectangle-list dict into `acc` rectangle by
rectangle.  Findings whose list is empty contribute nothing, so they are
dropped from the result. -/
def addBoxes (acc : PyDict (List Rect)) (src : PyDict (List Rect)) :
    PyDict (List Rect) :=
  src.foldl (fun acc p => p.2.foldl (fun acc r => addBox acc p.1 r) acc) acc

/-- `self.file_list[self.current_index]`.  In the app the current index is
always in range (`change_image` keeps it so); out of range we return `""`,
which `ValidState` below rules out. -/
def AppState.currentFile (s : AppState) : String :=
  (pyGet s.fileList s.currentIndex).getD ""

/-- First statement of `create_output_dictionary` (line 1356): re-sync the
current file's stored boxes from the display. -/
def syncBboxes (s : AppState) : AppState :=
  { s with bboxes := pySet s.bboxes s.currentFile s.viewRectItems }

/-- The `files` element built for one filename by the loop of
`create_output_dictionary` (lines 1364-1398).  `self.checkboxes` (the widget
dict) has exactly the configured findings as keys, in configuration order
(`create_checkboxes`).  Python's `KeyError` on a filename missing from
`self.checkbox_values` / `self.bboxes` / `self.radiobutton_values` cannot
happen in the app (every file gets an entry at init / load); the `.getD`
defaults here stand for that unreachable case and are excluded by
`ValidState` in the theorems. -/
def buildFileEntry (s : AppState) (filename : String) : FileEntry :=
  let viewedV := pyGetD s.viewedValues filename .notViewed
  let rotation := pyGetD s.rotation filename 0
  let notes := pyGetD s.notes filename ""
  let cboxStored := pyGetD s.checkboxValues filename []
  let cboxOut : PyDict CheckVal :=
    s.config.checkboxes.map (fun cbox =>
      (cbox, if viewedV ≠ Viewed.failed
             then pyGetD cboxStored cbox CheckVal.boolFalse
             else CheckVal.fail))
  let bboxOut := addBoxes [] (pyGetD s.bboxes filename [])
  let radioOut : PyDict (Option Int) :=
    rebuild [] (pyGetD s.radiobuttonValues filename [])
  { filename := filename
    viewed := viewedV
    rotation := rotation
    notes := notes
    checkboxes := cboxOut
    bboxes := bboxOut
    radiobuttons := radioOut }

/-- `create_output_dictionary` (lines 1353-1399): returns the (mutated) state
together with the dictionary that will be dumped to JSON. -/
def createOutputDictionary (s : AppState) : AppState × OutputData :=
  let s1 := syncBboxes s
  (s1,
   { imageDirectory := s1.dirPath
     config := s1.config
     files := s1.fileList.map (buildFileEntry s1) })

/-- `save_json` (lines 1401-1410): `json.dump` of the output dictionary.  The
returned `OutputData` stands for the bytes written to disk. -/
def saveJson (s : AppState) : AppState × OutputData :=
  createOutputDictionary s

/-! ## Loading (`load_from_json` / `load_bounding_box`, lines 1412-1465, 1504-1523) -/

/-- `load_bounding_box` (lines 1504-1523): append one rectangle to
`self.bboxes[file]` under `finding`.  `self.bboxes[file]` exists because
`load_from_json` first initialises `self.bboxes = {f: {} for f in file_list}`. -/
def loadBoundingBox (bbs : PyDict (PyDict (List Rect))) (file finding : String)
    (r : Rect) : PyDict (PyDict (List Rect)) :=
  let inner := pyGetD bbs file []
  pySet bbs file (addBox inner finding r)

/-- The nested-dict hydration pattern used identically for `checkboxes`
(lines 1447-1452) and `radiobuttons` (lines 1459-1464):
`if filename in outer: outer[filename][k] = v else: outer[filename] = {k: v}`
for each `(k, v)` of the entry's sub-dict. -/
def hydrateInner {β : Type} (outer : PyDict (PyDict β)) (filename : String)
    (kvs : PyDict β) : PyDict (PyDict β) :=
  kvs.foldl (fun outer p =>
    match pyLookup outer filename with
    | some inner => pySet outer filename (pySet inner p.1 p.2)
    | none => pySet outer filename [(p.1, p.2)]) outer

/-- The `bboxes` hydration loop of `load_from_json` (lines 1454-1457):
`load_bounding_box` for every stored coordinate set of every finding. -/
def hydrateBboxes (bbs : PyDict (PyDict (List Rect))) (filename : String)
    (src : PyDict (List Rect)) : PyDict (PyDict (List Rect)) :=
  src.foldl (fun bbs p =>
    p.2.foldl (fun bbs r => loadBoundingBox bbs filename p.1 r) bbs) bbs

/-- The per-entry hydration step of `load_from_json` (lines 1441-1464):
direct assignment for `viewed`/`rotation`/`notes`, then the `checkboxes`,
`bboxes` and `radiobuttons` loops (each loop touches a distinct field, so
the single record update reproduces the source's sequential loops). -/
def hydrateEntry (s : AppState) (entry : FileEntry) : AppState :=
  { s with
    viewedValues := pySet s.viewedValues entry.filename entry.viewed
    rotation := pySet s.rotation entry.filename entry.rotation
    notes := pySet s.notes entry.filename entry.notes
    checkboxValues := hydrateInner s.checkboxValues entry.filename entry.checkboxes
    bboxes := hydrateBboxes s.bboxes entry.filename entry.bboxes
    radiobuttonValues :=
      hydrateInner s.radiobuttonValues entry.filename entry.radiobuttons }

/-- `load_from_json` (lines 1412-1465), run as in the app on a freshly
constructed `MainApp` whose per-file dicts are still empty (`__init__`,
lines 86-96).  Fields the function does not touch (current index, the view)
keep their initial values.  The `if 'checkboxes' in entry` guards of the
source are vacuous here because `FileEntry` always carries the three
sub-dicts, exactly as `create_output_dictionary` always writes them. -/
def loadFromJson (data : OutputData) : AppState :=
  let fileList := data.files.map (·.filename)
  let s0 : AppState :=
    { dirPath := data.imageDirectory
      config := data.config
      fileList := fileList
      currentIndex := 0
      viewedValues := []
      rotation := []
      notes := []
      checkboxValues := []
      radiobuttonValues := []
      bboxes := fileList.map (fun f => (f, []))
      viewRectItems := [] }
  data.files.foldl hydrateEntry s0

/-! ## Navigation (`change_image`, lines 1147-1235)

`change_image` also resets window sliders, reloads the pixmap and updates
labels; only the session state (viewed marks, box sync, cursor) and the
"All Images Viewed" message box are modelled.  The image decode of
`load_file` is an external collaborator and is treated as succeeding; a decode
failure enters the model through the `prevFailed` flag of the *next* call,
exactly as `next_image(prev_failed=True)` does.  Python exceptions
(`IndexError` from list indexing) are modelled as `Except.error`. -/

/-- The four values accepted for `direction` (line 1154). -/
inductive Direction : Type
  | previous
  | go_to
  | next
  | next_unrated
deriving DecidableEq, Repr

/-- Message of a Python `IndexError` raised by list indexing. -/
def indexErrorMsg : String := "IndexError: list index out of range"

/-- `not self.viewed_values[f]`: only Python `False` (not viewed) is falsy. -/
def isUnviewed (vw : PyDict Viewed) (f : String) : Bool :=
  pyGetD vw f .notViewed = .notViewed

/-- The cursor update of `change_image` (lines 1178-1196), evaluated on the
state *after* the outgoing image has been marked.  For `next_unrated` the
source takes the first unviewed filename of `file_list[current+1:]`, falling
back to `file_list[0:current]`, and converts it back to an index with
`file_list.index` (first occurrence); if both scans are empty the index is
unchanged. -/
def newIndexFor (s : AppState) (direction : Direction) (goToIndex : Int) : Int :=
  match direction with
  | .previous =>
      if s.currentIndex - 1 < 0 then (s.fileList.length : Int) - 1
      else s.currentIndex - 1
  | .go_to => goToIndex
  | .next =>
      if s.currentIndex = (s.fileList.length : Int) - 1 then 0
      else s.currentIndex + 1
  | .next_unrated =>
      let unviewedAfter :=
        (pySliceFrom s.fileList (s.currentIndex + 1)).filter
          (isUnviewed s.viewedValues)
      let nextUnviewed :=
        match unviewedAfter.head? with
        | some f => some f
        | none =>
            ((pySliceTo s.fileList s.currentIndex).filter
              (isUnviewed s.viewedValues)).head?
      match nextUnviewed with
      | some f => ((s.fileList.indexOf f : Nat) : Int)
      | none => s.currentIndex

/-- `change_image(direction, go_to_index, prev_failed)` (lines 1147-1235).
Returns the new state and whether the "All Images Viewed" message was shown.
The steps, in source order:
1. mark the outgoing image viewed / failed (lines 1157-1160);
2. sync its boxes from the display and clear the display (lines 1164-1169);
3. show "All Images Viewed" if no unviewed file remains (lines 1174-1176);
4. compute the new index per direction (lines 1178-1196);
5. `load_file` indexes `self.file_list[self.current_index]` (line 710),
   raising `IndexError` when the new index is out of Python range;
6. re-attach the new file's stored boxes to the display (line 1216). -/
def changeImage (s : AppState) (direction : Direction) (goToIndex : Int)
    (prevFailed : Bool) : Except String (AppState × Bool) :=
  match pyGet s.fileList s.currentIndex with
  | none => Except.error indexErrorMsg
  | some curFile =>
    let s1 : AppState := { s with
      viewedValues :=
        pySet s.viewedValues curFile (if prevFailed then .failed else .viewed)
      bboxes := pySet s.bboxes curFile s.viewRectItems
      viewRectItems := [] }
    let totalUnviewed := s1.fileList.filter (isUnviewed s1.viewedValues)
    let allViewedShown : Bool := totalUnviewed.length == 0
    let s2 : AppState :=
      { s1 with currentIndex := newIndexFor s1 direction goToIndex }
    match pyGet s2.fileList s2.currentIndex with
    | none => Except.error indexErrorMsg
    | some newFile =>
        Except.ok
          ({ s2 with viewRectItems := addBoxes [] (pyGetD s2.bboxes newFile []) },
           allViewedShown)

/-! ## Backups (`backup_file`, lines 544-580)

The backup directory is modelled by its listing: the list of filenames it
contains (distinct, in unspecified order — `os.listdir` gives no ordering
guarantee, which is why the source sorts it).  `datetime.now()` is an external
collaborator; each tick receives the already-formatted timestamp string. -/

/-- `f"auto_backup_{current_time_str}.bak"` (line 563). -/
def backupName (timeStr : String) : String :=
  "auto_backup_" ++ timeStr ++ ".bak"

/-- Python string `<=`: code-point lexicographic order, i.e. the order on the
underlying character lists.  (Lean's built-in `String.le` is the same order
but does not reduce in the kernel, so we compare the character lists.) -/
def pyStrLe (a b : String) : Prop := a.data ≤ b.data

instance : DecidableRel pyStrLe := fun a b =>
  inferInstanceAs (Decidable (a.data ≤ b.data))

/-- Python `sorted` on a list of strings. -/
def pySorted (l : List String) : List String := l.insertionSort pyStrLe

/-- One timer tick of `backup_file` on a directory listing `dirFiles`:
sort the *entire* listing (line 566: `sorted([f for f in os.listdir(...)])`,
no pattern filtering), delete the first sorted entry when the listing already
has at least `max_backups` entries (lines 570-571; `backup_files[0]` on an
empty listing raises `IndexError`), then write the new snapshot (line 575;
writing an existing name overwrites it). -/
def backupTick (maxBackups : Nat) (timeStr : String) (dirFiles : List String) :
    Except String (List String) :=
  let sortedFiles := pySorted dirFiles
  let newName := backupName timeStr
  if maxBackups ≤ dirFiles.length then
    match sortedFiles with
    | [] => Except.error indexErrorMsg
    | oldest :: _ =>
        let remaining := dirFiles.erase oldest
        Except.ok (if newName ∈ remaining then remaining else remaining ++ [newName])
  else
    Except.ok (if newName ∈ dirFiles then dirFiles else dirFiles ++ [newName])

/-- A sequence of timer ticks with the given timestamp strings; an exception
in one tick aborts the sequence. -/
def backupTicks (maxBackups : Nat) :
    List String → List String → Except String (List String)
  | [], dirFiles => Except.ok dirFiles
  | t :: ts, dirFiles =>
      match backupTick maxBackups t dirFiles with
      | Except.error e => Except.error e
      | Except.ok dirFiles' => backupTicks maxBackups ts dirFiles'

/-! ## Bounding-box rotation (`graphics.py`, `BoundingBoxItem.rotate`, lines 55-89)

The source rotates the rectangle's centre about `center` by
`math.radians(rotation_angle)` and swaps width and height when
`rotation_angle % 180 != 0`.  Over exact real arithmetic the angle enters only
through `(cos θ, sin θ)` — a point on the unit circle — and through the
swap test.  We therefore embed the transform parameterised by that data:
`rotateRect c s swap center r` is `BoundingBoxItem.rotate(d, center)` for any
angle `d` with `cos(radians d) = c`, `sin(radians d) = s` and
`(d % 180 ≠ 0) = swap`.  The inverse call `rotate(-d, center)` of the same
item is then `rotateRect c (-s) swap center`, because `cos(-x) = cos x`,
`sin(-x) = -sin x`, and `d % 180 ≠ 0 ↔ (-d) % 180 ≠ 0`.  Exact arithmetic is
represented by `ℚ` so the definitions stay executable. -/

/-- `BoundingBoxItem.rotate` with the angle abstracted to its cosine/sine pair
and its width-height swap test. -/
def rotateRect (c sn : ℚ) (swap : Bool) (center : ℚ × ℚ) (r : Rect) : Rect :=
  -- rect.center(), translated so `center` is the origin
  let rcx := r.x + r.w / 2 - center.1
  let rcy := r.y + r.h / 2 - center.2
  -- rotate the centre about the origin
  let newX := rcx * c - rcy * sn
  let newY := rcx * sn + rcy * c
  -- translate back
  let ncx := newX + center.1
  let ncy := newY + center.2
  -- swap width/height when the angle is not a multiple of 180°
  let w := if swap then r.h else r.w
  let h := if swap then r.w else r.h
  -- rect.moveCenter(new_center) keeps the (possibly swapped) size
  { x := ncx - w / 2, y := ncy - h / 2, w := w, h := h }

/-! ## Accessors and session-state invariants used by the theorems -/

/-- The value of one checkbox of one file as held in memory:
`self.checkbox_values[f].get(k)`. -/
def storedCheckbox (s : AppState) (f k : String) : Option CheckVal :=
  (pyLookup s.checkboxValues f).bind (fun m => pyLookup m k)

/-- The value of one radio-button group of one file:
`self.radiobutton_values[f].get(k)`. -/
def storedRadio (s : AppState) (f k : String) : Option (Option Int) :=
  (pyLookup s.radiobuttonValues f).bind (fun m => pyLookup m k)

/-- The rectangles stored for one finding of one file (empty when absent). -/
def storedBoxes (s : AppState) (f finding : String) : List Rect :=
  ((pyLookup s.bboxes f).bind (fun m => pyLookup m finding)).getD []

/-- Save the session and load the written JSON back into a fresh app. -/
def roundTrip (s : AppState) : AppState :=
  loadFromJson (saveJson s).2

/-- The checkbox value hydrated for file `f`, key `k` after loading `data`. -/
def loadedCheckbox (data : OutputData) (f k : String) : Option CheckVal :=
  storedCheckbox (loadFromJson data) f k

/-- The cursor position of a navigation result. -/
def resultIndex (r : Except String (AppState × Bool)) : Except String Int :=
  r.map (fun p => p.1.currentIndex)

/-- The viewed status of file `f` in a navigation result. -/
def resultViewed (r : Except String (AppState × Bool)) (f : String) :
    Except String Viewed :=
  r.map (fun p => pyGetD p.1.viewedValues f .notViewed)

/-- Whether the navigation showed the "All Images Viewed" message. -/
def resultShown (r : Except String (AppState × Bool)) : Except String Bool :=
  r.map (fun p => p.2)

/-- The structural invariants `MainApp.__init__` establishes (lines 124-142)
and every session operation preserves: distinct sorted filenames, an
in-range cursor, one record per file in every per-file dict, checkbox keys
exactly the configured findings, uniquely-keyed dicts, and display boxes
in sync with the stored boxes of the current file.  This is what "valid
session state" means in the claims. -/
def ValidState (s : AppState) : Prop :=
  s.fileList.Nodup ∧
  s.config.checkboxes.Nodup ∧
  0 ≤ s.currentIndex ∧
  s.currentIndex < s.fileList.length ∧
  pyLookup s.bboxes s.currentFile = some s.viewRectItems ∧
  ∀ f ∈ s.fileList,
    (pyLookup s.viewedValues f).isSome ∧
    (pyLookup s.rotation f).isSome ∧
    (pyLookup s.notes f).isSome ∧
    (pyLookup s.checkboxValues f).isSome ∧
    UniqKeys ((pyLookup s.checkboxValues f).getD []) ∧
    (∀ k ∈ ((pyLookup s.checkboxValues f).getD []).map Prod.fst,
        k ∈ s.config.checkboxes) ∧
    (∀ k ∈ s.config.checkboxes,
        k ∈ ((pyLookup s.checkboxValues f).getD []).map Prod.fst) ∧
    (pyLookup s.radiobuttonValues f).isSome ∧
    UniqKeys ((pyLookup s.radiobuttonValues f).getD []) ∧
    (pyLookup s.bboxes f).isSome ∧
    UniqKeys ((pyLookup s.bboxes f).getD [])

instance (s : AppState) : Decidable (ValidState s) := by
  unfold ValidState
  infer_instance

/-! ## Concrete fixtures used for counterexamples and witnesses -/

/-- A minimal configuration with no findings or radio groups. -/
def cfgEmpty : Config :=
  { checkboxes := []
    radiobuttons := []
    tristateCheckboxes := false
    maxBackups := 10
    backupDir := "backups"
    backupInterval := 5
    logDir := "logs" }

/-- A fresh three-image session (`a.png`, `b.png`, `c.png`) with the cursor
at index 0 and nothing viewed, as `MainApp.__init__` builds it. -/
def navEx : AppState :=
  { dirPath := "."
    config := cfgEmpty
    fileList := ["a.png", "b.png", "c.png"]
    currentIndex := 0
    viewedValues :=
      [("a.png", .notViewed), ("b.png", .notViewed), ("c.png", .notViewed)]
    rotation := [("a.png", 0), ("b.png", 0), ("c.png", 0)]
    notes := [("a.png", ""), ("b.png", ""), ("c.png", "")]
    checkboxValues := [("a.png", []), ("b.png", []), ("c.png", [])]
    radiobuttonValues := [("a.png", []), ("b.png", []), ("c.png", [])]
    bboxes := [("a.png", []), ("b.png", []), ("c.png", [])]
    viewRectItems := [] }

/-- A configuration with the single finding `"A"`. -/
def cfgA : Config := { cfgEmpty with checkboxes := ["A"] }

/-- A one-image session whose record is `"FAILED"` while holding the
in-memory checkbox value `2` for finding `"A"`. -/
def failEx : AppState :=
  { dirPath := "."
    config := cfgA
    fileList := ["a.png"]
    currentIndex := 0
    viewedValues := [("a.png", .failed)]
    rotation := [("a.png", 0)]
    notes := [("a.png", "")]
    checkboxValues := [("a.png", [("A", .num 2)])]
    radiobuttonValues := [("a.png", [])]
    bboxes := [("a.png", [])]
    viewRectItems := [] }

instance : IsTotal String pyStrLe := ⟨fun a b => le_total a.data b.data⟩

instance : IsTrans String pyStrLe := ⟨fun _ _ _ h1 h2 => le_trans h1 h2⟩

/-- First `next_unrated` call on the fresh three-image session. -/
def c3r1 : Except String (AppState × Bool) :=
  changeImage navEx .next_unrated 0 false

/-- Second consecutive `next_unrated` call. -/
def c3r2 : Except String (AppState × Bool) :=
  c3r1.bind (fun p => changeImage p.1 .next_unrated 0 false)

/-- Third consecutive `next_unrated` call. -/
def c3r3 : Except String (AppState × Bool) :=
  c3r2.bind (fun p => changeImage p.1 .next_unrated 0 false)

/-- The fresh three-image session with one freshly drawn display box on the
current image (`a.png`) that has not yet been synced into `self.bboxes`. -/
def c8ex : AppState :=
  { navEx with viewRectItems := [("A", [⟨1, 2, 3, 4⟩])] }

/-- The images in the order the claim's circular scan visits them: forward
from position `n+1` to the end, then wrapping once through the start back to
position `n`. -/
def circularScan (l : List String) (n : Nat) : List String :=
  l.drop (n + 1) ++ l.take (n + 1)

/-- The state after one `next_unrated` call on the fresh three-image session:
`a.png` marked viewed, cursor moved to index 1. -/
def c2After : AppState :=
  { navEx with
    currentIndex := 1
    viewedValues :=
      [("a.png", .viewed), ("b.png", .notViewed), ("c.png", .notViewed)] }

/-- A session-file entry whose `checkboxes` sub-dict carries the key `"C"`
that is not among the configured findings. -/
def c5entry : FileEntry :=
  { filename := "f1"
    viewed := .notViewed
    rotation := 0
    notes := ""
    checkboxes := [("A", .num 1), ("C", .num 2)]
    bboxes := []
    radiobuttons := [] }

/-- A session JSON whose config declares findings `["A", "B"]` but whose
single file entry stores checkbox values for `"A"` and the stale `"C"`. -/
def c5data : OutputData :=
  { imageDirectory := "."
    config := { cfgEmpty with checkboxes := ["A", "B"] }
    files := [c5entry] }

section PyDictLemmas

variable {α : Type}

theorem pyGet_of_nonneg (l : List α) (i : Int) (h0 : 0 ≤ i)
    (h : i.toNat < l.length) : pyGet l i = some (l.get ⟨i.toNat, h⟩) := by
  unfold pyGet
  rw [if_pos h0, dif_pos h]

theorem pyGet_eq_none_iff (l : List α) (i : Int) :
    pyGet l i = none ↔ (i < -(l.length : Int) ∨ (l.length : Int) ≤ i) := by
  unfold pyGet
  by_cases h0 : 0 ≤ i
  · rw [if_pos h0]
    by_cases hlt : i.toNat < l.length
    · rw [dif_pos hlt]; simp; omega
    · rw [dif_neg hlt]; simp; omega
  · rw [if_neg h0]
    by_cases hj : 0 ≤ (l.length : Int) + i
    · rw [if_pos hj]
      by_cases hlt : ((l.length : Int) + i).toNat < l.length
      · rw [dif_pos hlt]; simp; omega
      · rw [dif_neg hlt]; simp; omega
    · rw [if_neg hj]; simp; omega

theorem pyGet_isSome_iff (l : List α) (i : Int) :
    (pyGet l i).isSome ↔ (-(l.length : Int) ≤ i ∧ i < (l.length : Int)) := by
  constructor
  · intro h
    by_contra hc
    have hn : pyGet l i = none := (pyGet_eq_none_iff l i).mpr (by omega)
    rw [hn] at h
    simp at h
  · intro h
    cases hs : pyGet l i with
    | none => rw [pyGet_eq_none_iff] at hs; omega
    | some v => simp

theorem pyLookup_nil (k : String) : pyLookup ([] : PyDict α) k = none := rfl

theorem pyLookup_cons (p : String × α) (d : PyDict α) (k : String) :
    pyLookup (p :: d) k = if p.1 = k then some p.2 else pyLookup d k := by
  by_cases h : p.1 = k <;> simp [pyLookup, List.find?_cons, h]

theorem pyLookup_append (d₁ d₂ : PyDict α) (k : String) :
    pyLookup (d₁ ++ d₂) k = (pyLookup d₁ k).orElse (fun _ => pyLookup d₂ k) := by
  induction d₁ with
  | nil => simp [pyLookup_nil, Option.orElse]
  | cons p d ih =>
      by_cases h : p.1 = k <;> simp [pyLookup_cons, h, ih, Option.orElse]

theorem pyLookup_mapReplace_self (d : PyDict α) (k : String) (v : α) :
    pyLookup (d.map (fun p => if p.1 = k then (k, v) else p)) k
      = (pyLookup d k).map (fun _ => v) := by
  induction d with
  | nil => rfl
  | cons p d ih =>
      by_cases h : p.1 = k
      · simp [pyLookup_cons, h]
      · simp [pyLookup_cons, h, ih]

theorem pyLookup_mapReplace_other (d : PyDict α) (k k' : String) (v : α) (h : k' ≠ k) :
    pyLookup (d.map (fun p => if p.1 = k then (k, v) else p)) k'
      = pyLookup d k' := by
  induction d with
  | nil => rfl
  | cons p d ih =>
      by_cases hp : p.1 = k
      · simp [pyLookup_cons, hp, Ne.symm h, ih]
      · by_cases hk : p.1 = k' <;> simp [pyLookup_cons, hp, hk, h, ih]

theorem pyLookup_pySet_self (d : PyDict α) (k : String) (v : α) :
    pyLookup (pySet d k v) k = some v := by
  unfold pySet
  by_cases hs : (pyLookup d k).isSome
  · rw [if_pos hs, pyLookup_mapReplace_self]
    obtain ⟨w, hw⟩ := Option.isSome_iff_exists.mp hs
    simp [hw]
  · rw [if_neg hs, pyLookup_append]
    rw [Option.not_isSome_iff_eq_none] at hs
    simp [hs, pyLookup_cons, Option.orElse]

theorem pyLookup_pySet_other (d : PyDict α) (k k' : String) (v : α) (h : k' ≠ k) :
    pyLookup (pySet d k v) k' = pyLookup d k' := by
  unfold pySet
  by_cases hs : (pyLookup d k).isSome
  · rw [if_pos hs, pyLookup_mapReplace_other _ _ _ _ h]
  · rw [if_neg hs, pyLookup_append]
    have hkk : ¬ k = k' := fun hh => h hh.symm
    cases hd : pyLookup d k' <;>
      simp [hd, pyLookup_cons, hkk, Option.orElse, pyLookup_nil]

/-- A key that does not occur among a dict's keys looks up to `none`. -/
theorem pyLookup_eq_none_of_not_mem (d : PyDict α) (k : String)
    (h : k ∉ d.map Prod.fst) : pyLookup d k = none := by
  induction d with
  | nil => rfl
  | cons p d ih =>
      simp only [List.map_cons, List.mem_cons] at h
      push_neg at h
      rw [pyLookup_cons, if_neg (fun hh => h.1 hh.symm)]
      exact ih h.2

/-- Rebuilding a uniquely-keyed dict by successive `pySet`s over an initial
dict looks up as the rebuilt dict first, then the initial one. -/
theorem pyLookup_rebuild (d init : PyDict α) (hd : UniqKeys d) (k : String) :
    pyLookup (rebuild init d) k
      = (pyLookup d k).orElse (fun _ => pyLookup init k) := by
  unfold rebuild
  induction d generalizing init with
  | nil => simp [pyLookup_nil, Option.orElse]
  | cons p d ih =>
      have hd' : UniqKeys d := hd.of_cons
      have hp : p.1 ∉ d.map Prod.fst := (List.nodup_cons.mp hd).1
      simp only [List.foldl_cons]
      rw [ih _ hd']
      by_cases h : p.1 = k
      · subst h
        have hnone : pyLookup d p.1 = pyLookup ([] : PyDict α) p.1 :=
          pyLookup_eq_none_of_not_mem d p.1 hp
        simp [hnone, pyLookup_pySet_self, Option.orElse, pyLookup_cons, pyLookup_nil]
      · rw [pyLookup_pySet_other _ _ _ _ (Ne.symm h)]
        simp [pyLookup_cons, h]

end PyDictLemmas

/-- Looking up `k` in a dict built by mapping a value function over a key
list yields `g k` whenever `k` occurs in the list. -/
theorem pyLookup_map_keys {α : Type} (keys : List String) (g : String → α)
    (k : String) (hk : k ∈ keys) :
    pyLookup (keys.map (fun c => (c, g c))) k = some (g k) := by
  induction keys with
  | nil => cases hk
  | cons a l ih =>
      rw [List.map_cons, pyLookup_cons]
      by_cases h : a = k
      · subst h; simp
      · rw [if_neg h]
        exact ih ((List.mem_cons.mp hk).resolve_left (fun hh => h hh.symm))

/-- `syncBboxes` only rewrites `bboxes`; all other fields are untouched. -/
theorem syncBboxes_fields (s : AppState) :
    (syncBboxes s).dirPath = s.dirPath ∧
    (syncBboxes s).config = s.config ∧
    (syncBboxes s).fileList = s.fileList ∧
    (syncBboxes s).currentIndex = s.currentIndex ∧
    (syncBboxes s).viewedValues = s.viewedValues ∧
    (syncBboxes s).rotation = s.rotation ∧
    (syncBboxes s).notes = s.notes ∧
    (syncBboxes s).checkboxValues = s.checkboxValues ∧
    (syncBboxes s).radiobuttonValues = s.radiobuttonValues ∧
    (syncBboxes s).viewRectItems = s.viewRectItems :=
  ⟨rfl, rfl, rfl, rfl, rfl, rfl, rfl, rfl, rfl, rfl⟩

/-! ## C4: failed records serialize checkboxes as "FAIL" -/

/-- **C4.** In the serialized output, every checkbox entry of a record whose
viewed status is `"FAILED"` carries the `"FAIL"` sentinel regardless of the
stored in-memory value, and every checkbox entry of a non-failed record
carries the stored value unchanged (`.get(cbox, False)` default for a value
never stored).  (`create_output_dictionary`, lines 1364-1375.) -/
theorem C4_failed_serializes_FAIL (s : AppState) (e : FileEntry)
    (he : e ∈ (createOutputDictionary s).2.files) (k : String)
    (hk : k ∈ s.config.checkboxes) :
    pyLookup e.checkboxes k =
      some (if pyGetD s.viewedValues e.filename .notViewed = .failed
            then CheckVal.fail
            else pyGetD (pyGetD s.checkboxValues e.filename []) k .boolFalse) := by
  obtain ⟨f, hf, rfl⟩ := List.mem_map.mp he
  simp only [buildFileEntry, syncBboxes]
  rw [pyLookup_map_keys _ _ _ hk]
  by_cases hv : pyGetD s.viewedValues f .notViewed = .failed <;> simp [hv]

/-- Witness for C4: the failed record of `failEx` stores `2` for `"A"` but
serializes it as `"FAIL"`. -/
theorem C4_witness :
    pyLookup (buildFileEntry (syncBboxes failEx) "a.png").checkboxes "A"
      = some CheckVal.fail :=
  (C4_failed_serializes_FAIL failEx (buildFileEntry (syncBboxes failEx) "a.png")
    (by decide) "A" (by decide)).trans (by decide)

/-! ## C6 and C10: backup rotation -/

theorem pyStrLe_refl (a : String) : pyStrLe a a := le_refl a.data

/-- One successful backup tick never grows a listing that is within the
retention bound beyond that bound. -/
theorem backupTick_length_le (maxB : Nat) (t : String) (d d' : List String)
    (hd : d.length ≤ maxB) (h : backupTick maxB t d = .ok d') :
    d'.length ≤ maxB := by
  unfold backupTick at h
  by_cases hc : maxB ≤ d.length
  · rw [if_pos hc] at h
    cases hs : pySorted d with
    | nil => rw [hs] at h; exact absurd h (by simp)
    | cons oldest rest =>
        rw [hs] at h
        have hin : oldest ∈ pySorted d := by
          rw [hs]; exact List.mem_cons_self oldest rest
        have hmem : oldest ∈ d :=
          (List.perm_insertionSort pyStrLe d).subset hin
        have h1 : 1 ≤ d.length := List.length_pos_of_mem hmem
        have hlen : (d.erase oldest).length = d.length - 1 :=
          List.length_erase_of_mem hmem
        simp only [Except.ok.injEq] at h
        subst h
        by_cases hm : backupName t ∈ d.erase oldest
        · rw [if_pos hm]; omega
        · rw [if_neg hm]; simp only [List.length_append, List.length_cons,
            List.length_nil]; omega
  · rw [if_neg hc] at h
    have hc' : d.length < maxB := Nat.lt_of_not_le hc
    simp only [Except.ok.injEq] at h
    subst h
    by_cases hm : backupName t ∈ d
    · rw [if_pos hm]; omega
    · rw [if_neg hm]; simp only [List.length_append, List.length_cons,
        List.length_nil]; omega

/-- Iterated version of `backupTick_length_le`. -/
theorem backupTicks_length_le (maxB : Nat) (ts : List String) :
    ∀ d l, d.length ≤ maxB → backupTicks maxB ts d = .ok l →
      l.length ≤ maxB := by
  induction ts with
  | nil =>
      intro d l hd h
      unfold backupTicks at h
      cases h
      exact hd
  | cons t ts ih =>
      intro d l hd h
      unfold backupTicks at h
      cases hstep : backupTick maxB t d with
      | error e => rw [hstep] at h; exact absurd h (by simp)
      | ok d₁ =>
          rw [hstep] at h
          exact ih d₁ l (backupTick_length_le maxB t d d₁ hd hstep) h

/-- **C6.** With `max_backups = 2` and an initially empty backup directory,
after the third tick exactly the two most recent backups remain (timestamps
`"1" < "2" < "3"` in the timestamp-suffixed names); and in general, starting
from an empty directory, the retained count after any number of ticks never
exceeds `max_backups`.  (`backup_file`, lines 544-580.) -/
theorem C6_backup_rotation :
    backupTicks 2 ["1", "2", "3"] [] = .ok [backupName "2", backupName "3"] ∧
    (∀ (maxB : Nat) (ts : List String) (l : List String),
        backupTicks maxB ts [] = .ok l → l.length ≤ maxB) := by
  refine ⟨by decide, ?_⟩
  intro maxB ts l h
  exact backupTicks_length_le maxB ts [] l (Nat.zero_le maxB) h

/-- Witness for C6: one tick with `max_backups = 1` from an empty directory
leaves one file, within the bound. -/
theorem C6_witness :
    backupTicks 1 ["7"] [] = .ok [backupName "7"] ∧
    ([backupName "7"] : List String).length ≤ 1 :=
  ⟨by decide, C6_backup_rotation.2 1 ["7"] [backupName "7"] (by decide)⟩

/-- **C10.** On a tick where the directory already holds at least
`max_backups` entries, exactly one file is deleted: the lexicographically
first entry of the *entire* listing (`sorted(os.listdir(...))[0]`, no
`auto_backup_` pattern filtering), after which the new snapshot is written —
so the post-tick count equals the pre-tick count (and hence still exceeds
`max_backups` whenever the pre-tick count did), and a lexicographically
first unrelated file is the one removed.  (`backup_file`, lines 565-580.) -/
theorem C10_evicts_lex_first (maxB : Nat) (t : String) (d : List String)
    (oldest : String) (rest : List String)
    (hlen : maxB ≤ d.length) (hsort : pySorted d = oldest :: rest)
    (hfresh : backupName t ∉ d.erase oldest) :
    backupTick maxB t d = .ok (d.erase oldest ++ [backupName t]) ∧
    (d.erase oldest ++ [backupName t]).length = d.length ∧
    (∀ f ∈ d, pyStrLe oldest f) := by
  have hin : oldest ∈ pySorted d := by
    rw [hsort]; exact List.mem_cons_self oldest rest
  have hmem : oldest ∈ d :=
    (List.perm_insertionSort pyStrLe d).subset hin
  have h1 : 1 ≤ d.length := List.length_pos_of_mem hmem
  have hlenE : (d.erase oldest).length = d.length - 1 :=
    List.length_erase_of_mem hmem
  refine ⟨?_, ?_, ?_⟩
  · unfold backupTick
    rw [if_pos hlen, hsort]
    dsimp only
    rw [if_neg hfresh]
  · simp only [List.length_append, List.length_cons, List.length_nil]; omega
  · intro f hf
    have hsorted : List.Sorted pyStrLe (oldest :: rest) := by
      rw [← hsort]
      exact List.sorted_insertionSort pyStrLe d
    have hf' : f ∈ oldest :: rest := by
      rw [← hsort]
      exact (List.perm_insertionSort pyStrLe d).symm.subset hf
    rcases List.mem_cons.mp hf' with h | h
    · exact h ▸ pyStrLe_refl oldest
    · exact (List.sorted_cons.mp hsorted).1 f h

/-- Witness for C10: with `max_backups = 1` and a listing of two files, the
unrelated `"aaa_unrelated"` (which sorts before `"zfile.json"` and before
any `auto_backup_` name present) is the file deleted. -/
theorem C10_witness :
    (1 ≤ (["zfile.json", "aaa_unrelated"] : List String).length) ∧
    backupTick 1 "9" ["zfile.json", "aaa_unrelated"]
      = .ok (["zfile.json", "aaa_unrelated"].erase "aaa_unrelated"
             ++ [backupName "9"]) :=
  ⟨by decide,
   (C10_evicts_lex_first 1 "9" ["zfile.json", "aaa_unrelated"] "aaa_unrelated"
     ["zfile.json"] (by decide) (by decide) (by decide)).1⟩

/-! ## C7: bounding-box rotation round-trip -/

/-- **C7.** For every rectangle, every rotation centre and every rotation
delta `d`, applying `BoundingBoxItem.rotate` by `d` and then by `-d` returns
the rectangle to its original `(x, y, w, h)` exactly, over exact real
arithmetic.  The angle `d` enters the source only through
`(cos (radians d), sin (radians d))` — here the abstract unit-circle point
`(c, sn)` — and through the swap test `d % 180 != 0` — here the abstract
`swap`, identical for `d` and `-d`; the inverse call is then
`rotateRect c (-sn) swap`. -/
theorem C7_rotate_roundtrip (c sn : ℚ) (hcs : c ^ 2 + sn ^ 2 = 1)
    (swap : Bool) (center : ℚ × ℚ) (r : Rect) :
    rotateRect c (-sn) swap center (rotateRect c sn swap center r) = r := by
  obtain ⟨x, y, w, h⟩ := r
  obtain ⟨px, py⟩ := center
  cases swap <;>
    · simp only [rotateRect, Bool.false_eq_true, if_false, if_true, Rect.mk.injEq]
      exact ⟨by linear_combination (x + w / 2 - px) * hcs,
             by linear_combination (y + h / 2 - py) * hcs, trivial, trivial⟩

/-- Witness for C7: the 90° rotation `(c, sn) = (0, 1)` (which swaps width
and height) about centre `(5, 7)`, applied to the rectangle `(1, 2, 3, 4)`
and undone. -/
theorem C7_witness :
    (0 : ℚ) ^ 2 + (1 : ℚ) ^ 2 = 1 ∧
    rotateRect 0 (-1) true (5, 7) (rotateRect 0 1 true (5, 7) ⟨1, 2, 3, 4⟩)
      = ⟨1, 2, 3, 4⟩ :=
  ⟨by norm_num, C7_rotate_roundtrip 0 1 (by norm_num) true (5, 7) ⟨1, 2, 3, 4⟩⟩

/-! ## C9: go-to index handling -/

/-- **C9 (amended).** `change_image("go_to", i)` performs no bounds check of
its own: for every `i` in the Python-indexable range `[-N, N)` it succeeds
and sets the cursor to exactly `i` (negative indices address from the end,
so they are *not* rejected even though they lie outside `[0, N)`), and only
for `i < -N` or `i ≥ N` does the subsequent `self.file_list[self.current_index]`
of `load_file` raise `IndexError`.  (`change_image` lines 1182-1183,
`load_file` line 710.) -/
theorem C9_goto (s : AppState) (hc0 : 0 ≤ s.currentIndex)
    (hcN : s.currentIndex < (s.fileList.length : Int)) (i : Int) :
    (-(s.fileList.length : Int) ≤ i ∧ i < (s.fileList.length : Int) →
        ∃ p : AppState × Bool,
          changeImage s .go_to i false = Except.ok p ∧ p.1.currentIndex = i) ∧
    (i < -(s.fileList.length : Int) ∨ (s.fileList.length : Int) ≤ i →
        changeImage s .go_to i false = Except.error indexErrorMsg) := by
  have htn : s.currentIndex.toNat < s.fileList.length := by omega
  have hcf := pyGet_of_nonneg s.fileList s.currentIndex hc0 htn
  constructor
  · rintro ⟨h1, h2⟩
    have hsome : (pyGet s.fileList i).isSome :=
      (pyGet_isSome_iff _ _).mpr ⟨h1, h2⟩
    obtain ⟨nf, hnf⟩ := Option.isSome_iff_exists.mp hsome
    unfold changeImage
    rw [hcf]
    dsimp only [newIndexFor]
    rw [hnf]
    exact ⟨_, rfl, rfl⟩
  · intro h
    have hnone : pyGet s.fileList i = none :=
      (pyGet_eq_none_iff _ _).mpr h
    unfold changeImage
    rw [hcf]
    dsimp only [newIndexFor]
    rw [hnone]

/-- Counterexample to C9 as stated: in the fresh three-image session, the
target index `-1` lies outside `[0, 3)`, yet the go-to operation does not
fail — it succeeds and sets the cursor to `-1` (Python indexing shows the
last image). -/
theorem C9_counterexample :
    navEx.fileList.length = 3 ∧
    ((-1 : Int) < 0 ∨ (3 : Int) ≤ -1) ∧
    resultIndex (changeImage navEx .go_to (-1) false) = Except.ok (-1) := by
  refine ⟨by decide, by decide, by decide⟩

/-- Witness for C9 (amended): in-range index 1 succeeds and lands on 1;
out-of-range index 5 raises `IndexError`. -/
theorem C9_witness :
    (changeImage navEx .go_to 5 false = Except.error indexErrorMsg) ∧
    ((-(navEx.fileList.length : Int) ≤ 1 ∧
      (1 : Int) < (navEx.fileList.length : Int)) ∧
     ∃ p : AppState × Bool,
       changeImage navEx .go_to 1 false = Except.ok p ∧ p.1.currentIndex = 1) :=
  ⟨(C9_goto navEx (by decide) (by decide) 5).2 (by decide),
   ⟨by decide, (C9_goto navEx (by decide) (by decide) 1).1 (by decide)⟩⟩

/-! ## C3: the three-image next-unrated scenario -/

/-- Counterexample to C3 as stated: the three consecutive next-unrated calls
from index 0 produce the cursor sequence `1, 2, 2` — the third call marks
`c.png` viewed, finds no unviewed image and leaves the cursor at 2, it does
not move it to 0 as the claim requires. -/
theorem C3_counterexample :
    resultIndex c3r1 = Except.ok 1 ∧
    resultIndex c3r2 = Except.ok 2 ∧
    resultIndex c3r3 = Except.ok 2 ∧
    resultIndex c3r3 ≠ Except.ok 0 := by decide

/-- **C3 (amended).** Starting from the fresh three-image session with the
cursor at 0 and all records NotViewed, three consecutive next-unrated calls
produce the cursor sequence `1, 2, 2` (the third call, finding nothing
unviewed, keeps the cursor at 2 and shows the "All Images Viewed" message,
which the first two calls do not show), and afterwards all three records
are Viewed. -/
theorem C3_sequence :
    resultIndex c3r1 = Except.ok 1 ∧
    resultIndex c3r2 = Except.ok 2 ∧
    resultIndex c3r3 = Except.ok 2 ∧
    resultViewed c3r3 "a.png" = Except.ok .viewed ∧
    resultViewed c3r3 "b.png" = Except.ok .viewed ∧
    resultViewed c3r3 "c.png" = Except.ok .viewed ∧
    resultShown c3r1 = Except.ok false ∧
    resultShown c3r2 = Except.ok false ∧
    resultShown c3r3 = Except.ok true := by decide

/-! ## C8: what saving mutates -/

/-- Counterexample to C8 as stated: saving `c8ex` *does* mutate in-memory
session state — `create_output_dictionary` first assigns
`self.bboxes[current] = self.image_view.rect_items` (line 1356), so the
stored bounding boxes of `a.png` change from `{}` to the drawn box. -/
theorem C8_counterexample :
    pyLookup (saveJson c8ex).1.bboxes "a.png"
      = some [("A", [⟨1, 2, 3, 4⟩])] ∧
    pyLookup c8ex.bboxes "a.png" = some [] ∧
    (some [("A", [(⟨1, 2, 3, 4⟩ : Rect)])] ≠ (some [] : Option (PyDict (List Rect)))) := by
  decide

/-- **C8 (amended).** Saving leaves every session field unchanged — viewed
marks, rotation, notes, checkbox and radio-button values, the cursor and the
display boxes, and the stored bounding boxes of every file other than the
current one — except that the current file's stored bounding boxes are
overwritten with the display's boxes (a real mutation whenever the display
holds boxes not yet synced).  (`create_output_dictionary` line 1356,
`save_json` lines 1401-1410.) -/
theorem C8_save_frame (s : AppState) (f : String) (hf : f ≠ s.currentFile) :
    (saveJson s).1.dirPath = s.dirPath ∧
    (saveJson s).1.config = s.config ∧
    (saveJson s).1.fileList = s.fileList ∧
    (saveJson s).1.currentIndex = s.currentIndex ∧
    (saveJson s).1.viewedValues = s.viewedValues ∧
    (saveJson s).1.rotation = s.rotation ∧
    (saveJson s).1.notes = s.notes ∧
    (saveJson s).1.checkboxValues = s.checkboxValues ∧
    (saveJson s).1.radiobuttonValues = s.radiobuttonValues ∧
    (saveJson s).1.viewRectItems = s.viewRectItems ∧
    pyLookup (saveJson s).1.bboxes s.currentFile = some s.viewRectItems ∧
    pyLookup (saveJson s).1.bboxes f = pyLookup s.bboxes f := by
  refine ⟨rfl, rfl, rfl, rfl, rfl, rfl, rfl, rfl, rfl, rfl, ?_, ?_⟩
  · exact pyLookup_pySet_self _ _ _
  · exact pyLookup_pySet_other _ _ _ _ hf

/-- Witness for C8 (amended): saving `c8ex` leaves the stored boxes of the
non-current file `b.png` untouched. -/
theorem C8_witness :
    ("b.png" ≠ c8ex.currentFile) ∧
    pyLookup (saveJson c8ex).1.bboxes "b.png" = pyLookup c8ex.bboxes "b.png" :=
  ⟨by decide,
   (C8_save_frame c8ex "b.png" (by decide)).2.2.2.2.2.2.2.2.2.2.2⟩

/-! ## C2: the next-unrated scan -/

theorem head?_filter_eq_find? {α : Type} (p : α → Bool) (l : List α) :
    (l.filter p).head? = l.find? p := by
  induction l with
  | nil => rfl
  | cons a l ih =>
      by_cases h : p a <;> simp [List.filter_cons, h, List.find?_cons, ih]

/-- The two-stage scan of `change_image` — first unviewed after the cursor,
else first unviewed before it — finds exactly the first hit of the circular
scan, provided the cursor's own file does not match (it was just marked). -/
theorem nextUnratedScan (l : List String) (p : String → Bool) (n : Nat)
    (hn : n < l.length) (hp : p (l.get ⟨n, hn⟩) = false) :
    (match ((l.drop (n + 1)).filter p).head? with
     | some f => some f
     | none => ((l.take n).filter p).head?)
    = (circularScan l n).find? p := by
  unfold circularScan
  simp only [List.get_eq_getElem] at hp
  rw [head?_filter_eq_find?, head?_filter_eq_find?, List.find?_append]
  have ht : l.take (n + 1) = l.take n ++ [l.get ⟨n, hn⟩] := by
    rw [List.take_succ, List.getElem?_eq_getElem hn]
    rfl
  rw [ht, List.find?_append]
  have hone : List.find? p [l.get ⟨n, hn⟩] = none := by
    simp only [List.find?, List.get_eq_getElem, hp]
  rw [hone]
  cases List.find? p (l.drop (n + 1)) <;>
    cases List.find? p (l.take n) <;> simp

theorem pySliceFrom_succ (l : List String) (c : Int) (h0 : 0 ≤ c)
    (hN : c < (l.length : Int)) :
    pySliceFrom l (c + 1) = l.drop (c.toNat + 1) := by
  unfold pySliceFrom
  congr 1
  unfold pySliceIdx
  rw [if_neg (by omega)]
  omega

theorem pySliceTo_toNat (l : List String) (c : Int) (h0 : 0 ≤ c)
    (hN : c < (l.length : Int)) :
    pySliceTo l c = l.take c.toNat := by
  unfold pySliceTo
  congr 1
  unfold pySliceIdx
  rw [if_neg (by omega)]
  omega

/-- The `next_unrated` cursor computation equals the first hit of the
circular scan (or stays put), provided the current file itself no longer
matches the unviewed test. -/
theorem newIndexFor_next_unrated (s : AppState) (g : Int)
    (hc0 : 0 ≤ s.currentIndex)
    (hcN : s.currentIndex < (s.fileList.length : Int))
    (htn : s.currentIndex.toNat < s.fileList.length)
    (hp : isUnviewed s.viewedValues (s.fileList.get ⟨s.currentIndex.toNat, htn⟩)
            = false) :
    newIndexFor s .next_unrated g =
      match (circularScan s.fileList s.currentIndex.toNat).find?
              (isUnviewed s.viewedValues) with
      | some f => ((s.fileList.indexOf f : Nat) : Int)
      | none => s.currentIndex := by
  unfold newIndexFor
  rw [pySliceFrom_succ _ _ hc0 hcN, pySliceTo_toNat _ _ hc0 hcN,
    ← nextUnratedScan s.fileList (isUnviewed s.viewedValues)
      s.currentIndex.toNat htn hp]

/-- **C2.** `change_image("next_unrated", prev_failed)` first marks the
outgoing image's record Viewed (or Failed when the caller signals a load
failure), then scans forward circularly from `current+1`, wrapping at most
once, and moves the cursor to the (position of the) first image whose record
is NotViewed; if no such image exists it leaves the cursor unchanged, and it
shows the "All Images Viewed" message exactly when no record is NotViewed.
(`change_image`, lines 1147-1196.) -/
theorem C2_next_unrated (s : AppState) (pf : Bool)
    (hc0 : 0 ≤ s.currentIndex)
    (hcN : s.currentIndex < (s.fileList.length : Int))
    (s' : AppState) (sig : Bool)
    (h : changeImage s .next_unrated 0 pf = Except.ok (s', sig)) :
    pyLookup s'.viewedValues s.currentFile
      = some (if pf then Viewed.failed else Viewed.viewed) ∧
    (match (circularScan s.fileList s.currentIndex.toNat).find?
             (isUnviewed (pySet s.viewedValues s.currentFile
                (if pf then Viewed.failed else Viewed.viewed))) with
     | some f => s'.currentIndex = ((s.fileList.indexOf f : Nat) : Int)
     | none => s'.currentIndex = s.currentIndex) ∧
    (sig = true ↔ ∀ f ∈ s.fileList,
        isUnviewed (pySet s.viewedValues s.currentFile
          (if pf then Viewed.failed else Viewed.viewed)) f = false) := by
  have htn : s.currentIndex.toNat < s.fileList.length := by omega
  have hcf : pyGet s.fileList s.currentIndex
      = some (s.fileList.get ⟨s.currentIndex.toNat, htn⟩) :=
    pyGet_of_nonneg _ _ hc0 htn
  have hcur : s.currentFile = s.fileList.get ⟨s.currentIndex.toNat, htn⟩ := by
    unfold AppState.currentFile
    rw [hcf]
    rfl
  have hpcf : isUnviewed
      (pySet s.viewedValues (s.fileList.get ⟨s.currentIndex.toNat, htn⟩)
        (if pf then Viewed.failed else Viewed.viewed))
      (s.fileList.get ⟨s.currentIndex.toNat, htn⟩) = false := by
    unfold isUnviewed pyGetD
    rw [pyLookup_pySet_self]
    cases pf <;> rfl
  rw [hcur]
  unfold changeImage at h
  rw [hcf] at h
  dsimp only at h
  rw [newIndexFor_next_unrated
        { s with
          viewedValues :=
            pySet s.viewedValues (s.fileList.get ⟨s.currentIndex.toNat, htn⟩)
              (if pf then Viewed.failed else Viewed.viewed)
          bboxes :=
            pySet s.bboxes (s.fileList.get ⟨s.currentIndex.toNat, htn⟩)
              s.viewRectItems
          viewRectItems := [] }
        0 hc0 hcN htn hpcf] at h
  cases hfind : (circularScan s.fileList s.currentIndex.toNat).find?
      (isUnviewed (pySet s.viewedValues
        (s.fileList.get ⟨s.currentIndex.toNat, htn⟩)
        (if pf then Viewed.failed else Viewed.viewed))) with
  | none =>
      rw [hfind] at h
      dsimp only at h
      rw [hcf] at h
      dsimp only at h
      simp only [Except.ok.injEq, Prod.mk.injEq] at h
      obtain ⟨hs', hsig⟩ := h
      subst hs'
      refine ⟨pyLookup_pySet_self _ _ _, ?_, ?_⟩
      · exact rfl
      · rw [← hsig]
        rw [beq_iff_eq, List.length_eq_zero, List.filter_eq_nil_iff]
        simp [Bool.not_eq_true]
  | some f =>
      rw [hfind] at h
      dsimp only at h
      have hmemf : f ∈ s.fileList := by
        have hmem : f ∈ circularScan s.fileList s.currentIndex.toNat :=
          List.mem_of_find?_eq_some hfind
        unfold circularScan at hmem
        rcases List.mem_append.mp hmem with h' | h'
        · exact List.drop_subset _ _ h'
        · exact List.take_subset _ _ h'
      have hidx : s.fileList.indexOf f < s.fileList.length :=
        List.indexOf_lt_length.mpr hmemf
      have hpg : pyGet s.fileList ((s.fileList.indexOf f : Nat) : Int)
          = some (s.fileList.get ⟨s.fileList.indexOf f, hidx⟩) := by
        have hg := pyGet_of_nonneg s.fileList ((s.fileList.indexOf f : Nat) : Int)
          (by omega) (by simpa using hidx)
        simpa using hg
      rw [hpg] at h
      dsimp only at h
      simp only [Except.ok.injEq, Prod.mk.injEq] at h
      obtain ⟨hs', hsig⟩ := h
      subst hs'
      refine ⟨pyLookup_pySet_self _ _ _, ?_, ?_⟩
      · exact rfl
      · rw [← hsig]
        rw [beq_iff_eq, List.length_eq_zero, List.filter_eq_nil_iff]
        simp [Bool.not_eq_true]

/-- Witness for C2: the first `next_unrated` call on the fresh three-image
session succeeds with the known result, and the theorem's marking conclusion
holds on it. -/
theorem C2_witness :
    changeImage navEx .next_unrated 0 false = Except.ok (c2After, false) ∧
    pyLookup c2After.viewedValues navEx.currentFile
      = some (if false then Viewed.failed else Viewed.viewed) :=
  ⟨by decide,
   (C2_next_unrated navEx false (by decide) (by decide) c2After false
     (by decide)).1⟩

/-! ## Hydration lemmas (shared by the C5 and C1 theorems) -/

section HydrationLemmas

variable {α β : Type}

theorem pyLookup_eq_none_iff_not_mem (d : PyDict α) (k : String) :
    pyLookup d k = none ↔ k ∉ d.map Prod.fst := by
  induction d with
  | nil => simp [pyLookup_nil]
  | cons p d ih =>
      rw [pyLookup_cons, List.map_cons, List.mem_cons]
      by_cases h : p.1 = k
      · rw [if_pos h]
        simp only [h]
        constructor
        · intro hnone; exact absurd hnone (by simp)
        · intro hnot; exact absurd (Or.inl trivial) hnot
      · rw [if_neg h, ih]
        constructor
        · intro hnm hor
          rcases hor with h1 | h2
          · exact h h1.symm
          · exact hnm h2
        · intro hnot hmem
          exact hnot (Or.inr hmem)

theorem pyLookup_isSome_of_mem (d : PyDict α) (k : String)
    (h : k ∈ d.map Prod.fst) : (pyLookup d k).isSome := by
  cases hl : pyLookup d k with
  | none => exact absurd ((pyLookup_eq_none_iff_not_mem d k).mp hl) (not_not.mpr h)
  | some v => rfl

theorem uniqKeys_pySet (d : PyDict α) (k : String) (v : α) (h : UniqKeys d) :
    UniqKeys (pySet d k v) := by
  unfold pySet
  by_cases hs : (pyLookup d k).isSome
  · rw [if_pos hs]
    have hkeys : (d.map (fun p => if p.1 = k then (k, v) else p)).map Prod.fst
        = d.map Prod.fst := by
      rw [List.map_map]
      apply List.map_congr_left
      intro p _
      by_cases hp : p.1 = k <;> simp [hp]
    unfold UniqKeys
    rw [hkeys]
    exact h
  · rw [if_neg hs]
    have hk : k ∉ d.map Prod.fst := by
      intro hmem
      exact hs (pyLookup_isSome_of_mem d k hmem)
    unfold UniqKeys
    rw [List.map_append, List.nodup_append]
    refine ⟨h, List.nodup_singleton _, ?_⟩
    intro a ha hb
    rw [List.map_singleton, List.mem_singleton] at hb
    subst hb
    exact hk ha

theorem uniqKeys_rebuild (init d : PyDict α) (h : UniqKeys init) :
    UniqKeys (rebuild init d) := by
  unfold rebuild
  induction d generalizing init with
  | nil => exact h
  | cons p rest ih => exact ih _ (uniqKeys_pySet _ _ _ h)

theorem length_le_pySet (d : PyDict α) (k : String) (v : α) :
    d.length ≤ (pySet d k v).length := by
  unfold pySet
  by_cases hs : (pyLookup d k).isSome
  · rw [if_pos hs, List.length_map]
  · rw [if_neg hs, List.length_append]
    omega

theorem length_le_rebuild (init d : PyDict α) :
    init.length ≤ (rebuild init d).length := by
  unfold rebuild
  induction d generalizing init with
  | nil => exact le_refl _
  | cons p rest ih =>
      exact le_trans (length_le_pySet init p.1 p.2) (ih _)

theorem rebuild_nil_ne_nil (d : PyDict α) (h : d ≠ []) :
    rebuild [] d ≠ [] := by
  cases d with
  | nil => exact absurd rfl h
  | cons p rest =>
      have h1 : (1 : Nat) ≤ (rebuild [(p.1, p.2)] rest).length :=
        le_trans (by simp) (length_le_rebuild [(p.1, p.2)] rest)
      have : rebuild [] (p :: rest) = rebuild [(p.1, p.2)] rest := rfl
      rw [this]
      intro hnil
      rw [hnil] at h1
      simp at h1

theorem pyLookup_hydrateInner_other (outer : PyDict (PyDict β)) (fn : String)
    (kvs : PyDict β) (f : String) (hf : f ≠ fn) :
    pyLookup (hydrateInner outer fn kvs) f = pyLookup outer f := by
  unfold hydrateInner
  induction kvs generalizing outer with
  | nil => rfl
  | cons p rest ih =>
      simp only [List.foldl_cons]
      cases hlk : pyLookup outer fn <;>
        · dsimp only
          rw [ih, pyLookup_pySet_other _ _ _ _ hf]

theorem pyLookup_hydrateInner_self_some (outer : PyDict (PyDict β))
    (fn : String) (kvs : PyDict β) (inner : PyDict β)
    (h : pyLookup outer fn = some inner) :
    pyLookup (hydrateInner outer fn kvs) fn = some (rebuild inner kvs) := by
  unfold hydrateInner
  induction kvs generalizing outer inner with
  | nil => simpa [rebuild] using h
  | cons p rest ih =>
      simp only [List.foldl_cons]
      rw [h]
      dsimp only
      exact ih _ _ (pyLookup_pySet_self outer fn (pySet inner p.1 p.2))

theorem pyLookup_hydrateInner_self_none (outer : PyDict (PyDict β))
    (fn : String) (kvs : PyDict β) (h : pyLookup outer fn = none) :
    pyLookup (hydrateInner outer fn kvs) fn
      = if kvs.isEmpty then none else some (rebuild [] kvs) := by
  cases kvs with
  | nil => simpa [hydrateInner] using h
  | cons p rest =>
      unfold hydrateInner
      simp only [List.foldl_cons, List.isEmpty_cons, if_neg]
      rw [h]
      dsimp only
      have hstep := pyLookup_pySet_self outer fn [(p.1, p.2)]
      have := pyLookup_hydrateInner_self_some (pySet outer fn [(p.1, p.2)])
        fn rest [(p.1, p.2)] hstep
      unfold hydrateInner at this
      simpa [rebuild] using this

theorem pyLookup_addBox_self (acc : PyDict (List Rect)) (k : String) (r : Rect) :
    pyLookup (addBox acc k r) k = some (pyGetD acc k [] ++ [r]) := by
  unfold addBox pyGetD
  cases h : pyLookup acc k <;>
    · dsimp only
      rw [pyLookup_pySet_self]
      simp

theorem pyLookup_addBox_other (acc : PyDict (List Rect)) (k : String) (r : Rect)
    (f : String) (hf : f ≠ k) :
    pyLookup (addBox acc k r) f = pyLookup acc f := by
  unfold addBox
  cases pyLookup acc k <;>
    · dsimp only
      rw [pyLookup_pySet_other _ _ _ _ hf]

theorem pyLookup_addBoxList_self (rs : List Rect) (acc : PyDict (List Rect))
    (k : String) :
    pyLookup (rs.foldl (fun a r => addBox a k r) acc) k
      = if rs.isEmpty then pyLookup acc k
        else some (pyGetD acc k [] ++ rs) := by
  induction rs generalizing acc with
  | nil => simp
  | cons r rest ih =>
      simp only [List.foldl_cons, List.isEmpty_cons, if_neg]
      rw [ih (addBox acc k r)]
      by_cases he : rest.isEmpty
      · have : rest = [] := List.isEmpty_iff.mp he
        subst this
        simp [pyLookup_addBox_self, pyGetD]
      · rw [if_neg he]
        have : pyGetD (addBox acc k r) k [] = pyGetD acc k [] ++ [r] := by
          unfold pyGetD
          rw [pyLookup_addBox_self]
          rfl
        rw [this]
        simp

theorem pyLookup_addBoxList_other (rs : List Rect) (acc : PyDict (List Rect))
    (k f : String) (hf : f ≠ k) :
    pyLookup (rs.foldl (fun a r => addBox a k r) acc) f = pyLookup acc f := by
  induction rs generalizing acc with
  | nil => rfl
  | cons r rest ih => rw [List.foldl_cons, ih, pyLookup_addBox_other _ _ _ _ hf]

/-- Flattening a uniquely-keyed source dict into an accumulator whose keys
are disjoint from the source's: each nonempty rectangle list comes through
unchanged, empty lists are dropped, other keys keep their accumulator value. -/
theorem pyLookup_addBoxes (src : PyDict (List Rect)) (acc : PyDict (List Rect))
    (hu : UniqKeys src)
    (hdisj : ∀ k ∈ src.map Prod.fst, pyLookup acc k = none) (k : String) :
    pyLookup (addBoxes acc src) k
      = match pyLookup src k with
        | some l => if l.isEmpty then pyLookup acc k else some l
        | none => pyLookup acc k := by
  induction src generalizing acc with
  | nil => simp [addBoxes, pyLookup_nil]
  | cons p rest ih =>
      have hu' : UniqKeys rest := hu.of_cons
      have hp : p.1 ∉ rest.map Prod.fst := (List.nodup_cons.mp hu).1
      have hd0 : pyLookup acc p.1 = none :=
        hdisj p.1 (by simp)
      unfold addBoxes
      simp only [List.foldl_cons]
      have hrest : ∀ k' ∈ rest.map Prod.fst,
          pyLookup (p.2.foldl (fun a r => addBox a p.1 r) acc) k' = none := by
        intro k' hk'
        have hne : k' ≠ p.1 := fun hh => hp (hh ▸ hk')
        rw [pyLookup_addBoxList_other _ _ _ _ hne]
        exact hdisj k' (by simp [hk'])
      have ihr := ih (p.2.foldl (fun a r => addBox a p.1 r) acc) hu' hrest
      unfold addBoxes at ihr
      by_cases hk : k = p.1
      · rw [hk]
        rw [hk] at ihr
        have hnone : pyLookup rest p.1 = none := by
          rw [pyLookup_eq_none_iff_not_mem]
          exact hp
        rw [hnone] at ihr
        dsimp only at ihr
        rw [pyLookup_addBoxList_self] at ihr
        rw [ihr, pyLookup_cons, if_pos rfl]
        dsimp only
        by_cases he : p.2.isEmpty
        · rw [if_pos he, if_pos he]
        · rw [if_neg he, if_neg he]
          unfold pyGetD
          rw [hd0]
          simp
      · rw [pyLookup_addBoxList_other _ _ _ _ hk] at ihr
        rw [ihr, pyLookup_cons, if_neg (fun hh => hk hh.symm)]

theorem uniqKeys_addBox (acc : PyDict (List Rect)) (k : String) (r : Rect)
    (h : UniqKeys acc) : UniqKeys (addBox acc k r) := by
  unfold addBox
  cases pyLookup acc k <;> exact uniqKeys_pySet _ _ _ h

theorem uniqKeys_addBoxes (acc src : PyDict (List Rect)) (h : UniqKeys acc) :
    UniqKeys (addBoxes acc src) := by
  unfold addBoxes
  induction src generalizing acc with
  | nil => exact h
  | cons p rest ih =>
      simp only [List.foldl_cons]
      apply ih
      clear ih
      induction p.2 generalizing acc with
      | nil => exact h
      | cons r rs ihr =>
          simp only [List.foldl_cons]
          exact ihr _ (uniqKeys_addBox _ _ _ h)

theorem pyLookup_loadBoxList (rs : List Rect)
    (bbs : PyDict (PyDict (List Rect))) (fn finding : String)
    (inner : PyDict (List Rect)) (h : pyLookup bbs fn = some inner) :
    pyLookup (rs.foldl (fun b r => loadBoundingBox b fn finding r) bbs) fn
      = some (rs.foldl (fun a r => addBox a finding r) inner) := by
  induction rs generalizing bbs inner with
  | nil => simpa using h
  | cons r rest ih =>
      simp only [List.foldl_cons]
      apply ih
      unfold loadBoundingBox pyGetD
      rw [h]
      exact pyLookup_pySet_self _ _ _

theorem pyLookup_loadBoxList_other (rs : List Rect)
    (bbs : PyDict (PyDict (List Rect))) (fn finding f : String) (hf : f ≠ fn) :
    pyLookup (rs.foldl (fun b r => loadBoundingBox b fn finding r) bbs) f
      = pyLookup bbs f := by
  induction rs generalizing bbs with
  | nil => rfl
  | cons r rest ih =>
      simp only [List.foldl_cons]
      rw [ih]
      unfold loadBoundingBox
      rw [pyLookup_pySet_other _ _ _ _ hf]

theorem pyLookup_hydrateBboxes_self (src : PyDict (List Rect))
    (bbs : PyDict (PyDict (List Rect))) (fn : String)
    (inner : PyDict (List Rect)) (h : pyLookup bbs fn = some inner) :
    pyLookup (hydrateBboxes bbs fn src) fn = some (addBoxes inner src) := by
  unfold hydrateBboxes addBoxes
  induction src generalizing bbs inner with
  | nil => simpa using h
  | cons p rest ih =>
      simp only [List.foldl_cons]
      exact ih _ _ (pyLookup_loadBoxList p.2 bbs fn p.1 inner h)

theorem pyLookup_hydrateBboxes_other (src : PyDict (List Rect))
    (bbs : PyDict (PyDict (List Rect))) (fn f : String) (hf : f ≠ fn) :
    pyLookup (hydrateBboxes bbs fn src) f = pyLookup bbs f := by
  unfold hydrateBboxes
  induction src generalizing bbs with
  | nil => rfl
  | cons p rest ih =>
      simp only [List.foldl_cons]
      rw [ih, pyLookup_loadBoxList_other _ _ _ _ _ hf]

/-- Hydrating entries for other filenames does not change what is stored
for `f`. -/
theorem foldl_hydrate_other (entries : List FileEntry) (s : AppState)
    (f : String) (hne : ∀ e ∈ entries, e.filename ≠ f) :
    pyLookup (entries.foldl hydrateEntry s).viewedValues f
      = pyLookup s.viewedValues f ∧
    pyLookup (entries.foldl hydrateEntry s).rotation f
      = pyLookup s.rotation f ∧
    pyLookup (entries.foldl hydrateEntry s).notes f
      = pyLookup s.notes f ∧
    pyLookup (entries.foldl hydrateEntry s).checkboxValues f
      = pyLookup s.checkboxValues f ∧
    pyLookup (entries.foldl hydrateEntry s).radiobuttonValues f
      = pyLookup s.radiobuttonValues f ∧
    pyLookup (entries.foldl hydrateEntry s).bboxes f
      = pyLookup s.bboxes f := by
  induction entries generalizing s with
  | nil => exact ⟨rfl, rfl, rfl, rfl, rfl, rfl⟩
  | cons e rest ih =>
      have hef : f ≠ e.filename := fun hh => hne e (by simp) hh.symm
      have hne' : ∀ e' ∈ rest, e'.filename ≠ f :=
        fun e' he' => hne e' (by simp [he'])
      simp only [List.foldl_cons]
      have ihr := ih (hydrateEntry s e) hne'
      refine ⟨?_, ?_, ?_, ?_, ?_, ?_⟩
      · rw [ihr.1]
        exact pyLookup_pySet_other _ _ _ _ hef
      · rw [ihr.2.1]
        exact pyLookup_pySet_other _ _ _ _ hef
      · rw [ihr.2.2.1]
        exact pyLookup_pySet_other _ _ _ _ hef
      · rw [ihr.2.2.2.1]
        exact pyLookup_hydrateInner_other _ _ _ _ hef
      · rw [ihr.2.2.2.2.1]
        exact pyLookup_hydrateInner_other _ _ _ _ hef
      · rw [ihr.2.2.2.2.2]
        exact pyLookup_hydrateBboxes_other _ _ _ _ hef

/-- What `load_from_json` stores for the (unique) entry of filename
`e.filename`: the scalar fields directly, the checkbox/radio sub-dicts as
rebuilt from the entry (absent when the entry's sub-dict is empty), and the
bounding boxes flattened into the pre-initialised empty per-file dict. -/
theorem loadFromJson_lookup (data : OutputData)
    (hnd : (data.files.map FileEntry.filename).Nodup)
    (e : FileEntry) (he : e ∈ data.files) :
    pyLookup (loadFromJson data).viewedValues e.filename = some e.viewed ∧
    pyLookup (loadFromJson data).rotation e.filename = some e.rotation ∧
    pyLookup (loadFromJson data).notes e.filename = some e.notes ∧
    pyLookup (loadFromJson data).checkboxValues e.filename
      = (if e.checkboxes.isEmpty then none
         else some (rebuild [] e.checkboxes)) ∧
    pyLookup (loadFromJson data).radiobuttonValues e.filename
      = (if e.radiobuttons.isEmpty then none
         else some (rebuild [] e.radiobuttons)) ∧
    pyLookup (loadFromJson data).bboxes e.filename
      = some (addBoxes [] e.bboxes) := by
  have hmemf : e.filename ∈ data.files.map FileEntry.filename :=
    List.mem_map_of_mem _ he
  obtain ⟨l1, l2, hsplit⟩ := List.append_of_mem he
  have hd := hnd
  rw [hsplit, List.map_append, List.map_cons, List.nodup_append] at hd
  obtain ⟨hd1, hd2, hdisj⟩ := hd
  have h1 : ∀ e' ∈ l1, e'.filename ≠ e.filename := by
    intro e' he' heq
    exact hdisj (heq ▸ List.mem_map_of_mem _ he') (List.mem_cons_self _ _)
  have h2 : ∀ e' ∈ l2, e'.filename ≠ e.filename := by
    intro e' he' heq
    exact (List.nodup_cons.mp hd2).1 (heq ▸ List.mem_map_of_mem _ he')
  unfold loadFromJson
  rw [hsplit, List.foldl_append, List.foldl_cons]
  have hbase := foldl_hydrate_other l1
    { dirPath := data.imageDirectory
      config := data.config
      fileList := data.files.map (·.filename)
      currentIndex := 0
      viewedValues := []
      rotation := []
      notes := []
      checkboxValues := []
      radiobuttonValues := []
      bboxes := (data.files.map (·.filename)).map (fun f => (f, []))
      viewRectItems := [] }
    e.filename h1
  have hrest := foldl_hydrate_other l2
    (hydrateEntry (l1.foldl hydrateEntry
      { dirPath := data.imageDirectory
        config := data.config
        fileList := data.files.map (·.filename)
        currentIndex := 0
        viewedValues := []
        rotation := []
        notes := []
        checkboxValues := []
        radiobuttonValues := []
        bboxes := (data.files.map (·.filename)).map (fun f => (f, []))
        viewRectItems := [] }) e)
    e.filename h2
  rw [hsplit] at hbase hrest
  refine ⟨?_, ?_, ?_, ?_, ?_, ?_⟩
  · rw [hrest.1]
    exact pyLookup_pySet_self _ _ _
  · rw [hrest.2.1]
    exact pyLookup_pySet_self _ _ _
  · rw [hrest.2.2.1]
    exact pyLookup_pySet_self _ _ _
  · rw [hrest.2.2.2.1]
    apply pyLookup_hydrateInner_self_none
    rw [hbase.2.2.2.1]
    rfl
  · rw [hrest.2.2.2.2.1]
    apply pyLookup_hydrateInner_self_none
    rw [hbase.2.2.2.2.1]
    rfl
  · rw [hrest.2.2.2.2.2]
    apply pyLookup_hydrateBboxes_self
    rw [hbase.2.2.2.2.2]
    rw [hsplit] at hmemf
    exact pyLookup_map_keys _ (fun _ => []) e.filename (by simp)

end HydrationLemmas

/-! ## Helper facts about the saved output (used by C1) -/

theorem keys_map_built {α : Type} (keys : List String) (g : String → α) :
    (keys.map (fun c => (c, g c))).map Prod.fst = keys := by
  rw [List.map_map]
  exact List.map_id'' (fun x => rfl) keys

theorem buildFileEntry_fields (s1 : AppState) (f : String) :
    (buildFileEntry s1 f).filename = f ∧
    (buildFileEntry s1 f).viewed = pyGetD s1.viewedValues f .notViewed ∧
    (buildFileEntry s1 f).rotation = pyGetD s1.rotation f 0 ∧
    (buildFileEntry s1 f).notes = pyGetD s1.notes f "" ∧
    (buildFileEntry s1 f).bboxes = addBoxes [] (pyGetD s1.bboxes f []) ∧
    (buildFileEntry s1 f).radiobuttons
      = rebuild [] (pyGetD s1.radiobuttonValues f []) :=
  ⟨rfl, rfl, rfl, rfl, rfl, rfl⟩

theorem buildFileEntry_checkboxes_eq (s1 : AppState) (f : String) :
    (buildFileEntry s1 f).checkboxes
      = if pyGetD s1.viewedValues f .notViewed = Viewed.failed
        then s1.config.checkboxes.map (fun c => (c, CheckVal.fail))
        else s1.config.checkboxes.map
          (fun c => (c, pyGetD (pyGetD s1.checkboxValues f []) c
            CheckVal.boolFalse)) := by
  simp only [buildFileEntry]
  by_cases hv : pyGetD s1.viewedValues f .notViewed = Viewed.failed
  · rw [if_pos hv]
    simp [hv]
  · rw [if_neg hv]
    simp [hv]

theorem saved_filenames (s : AppState) :
    ((saveJson s).2.files.map FileEntry.filename) = s.fileList := by
  show ((s.fileList.map (buildFileEntry (syncBboxes s))).map FileEntry.filename)
      = s.fileList
  rw [List.map_map]
  exact List.map_id'' (fun x => rfl) s.fileList

/-! ## C5: load-time checkbox reconciliation -/

/-- Counterexample to C5 as stated: loading a session whose config declares
findings `["A", "B"]` but whose file entry stores `{"A": 1, "C": 2}`
hydrates `"C"` as well — `load_from_json` (lines 1447-1452) copies every
key of the entry without consulting the configured finding list, so stale
keys are kept, not dropped. -/
theorem C5_counterexample :
    ("C" ∉ c5data.config.checkboxes) ∧
    loadedCheckbox c5data "f1" "C" = some (CheckVal.num 2) := by
  exact ⟨by decide, by decide⟩

/-- **C5 (amended).** When loading a session JSON, *every* checkbox key
present in a file entry is hydrated into the record with its stored value,
whether or not the key occurs in the session's configured finding list —
no reconciliation takes place.  (`load_from_json`, lines 1447-1452.) -/
theorem C5_hydrates_all_keys (data : OutputData) (e : FileEntry)
    (hnd : (data.files.map FileEntry.filename).Nodup) (he : e ∈ data.files)
    (hu : UniqKeys e.checkboxes) (k : String) (v : CheckVal)
    (hv : pyLookup e.checkboxes k = some v) :
    loadedCheckbox data e.filename k = some v := by
  unfold loadedCheckbox storedCheckbox
  have h4 := (loadFromJson_lookup data hnd e he).2.2.2.1
  rw [h4]
  have hne : ¬ e.checkboxes.isEmpty = true := by
    cases hc : e.checkboxes with
    | nil => rw [hc] at hv; exact absurd hv (by simp [pyLookup_nil])
    | cons p rest => simp [hc]
  rw [if_neg hne]
  show pyLookup (rebuild [] e.checkboxes) k = some v
  rw [pyLookup_rebuild _ _ hu k, hv]
  rfl

/-- Witness for C5 (amended): the stale key `"C"` of `c5data`'s entry is
hydrated with its stored value `2`. -/
theorem C5_witness :
    loadedCheckbox c5data c5entry.filename "C" = some (CheckVal.num 2) :=
  C5_hydrates_all_keys c5data c5entry (by decide) (by decide) (by decide)
    "C" (CheckVal.num 2) (by decide)

/-! ## C1: save/load round-trip -/

/-- Counterexample to C1 as stated: `failEx` is a valid session state whose
record is Failed with stored checkbox value `2`; saving writes `"FAIL"`
for every checkbox of a failed record, so the reloaded session holds
`"FAIL"`, not the original `2` — checkbox values do not round-trip exactly. -/
theorem C1_counterexample :
    ValidState failEx ∧
    storedCheckbox failEx "a.png" "A" = some (CheckVal.num 2) ∧
    storedCheckbox (roundTrip failEx) "a.png" "A" = some CheckVal.fail ∧
    some CheckVal.fail ≠ some (CheckVal.num 2) := by
  refine ⟨by decide, by decide, by decide, by decide⟩

/-- **C1 (amended).** For every valid session state (`ValidState`: the
structural invariants the app maintains, including display boxes synced for
the current file and checkbox keys equal to the configured findings),
reloading the saved JSON reconstructs, for every image: the viewed flag,
rotation and notes exactly; every radio-button value exactly; every checkbox
value exactly for records not marked Failed, while every configured checkbox
of a Failed record comes back as the `"FAIL"` sentinel instead of the stored
value; and every finding's bounding-box rectangle list exactly (exact in
this rational-arithmetic model; floats only add representation tolerance).
(`create_output_dictionary` / `save_json` / `load_from_json`.) -/
theorem C1_roundtrip (s : AppState) (hv : ValidState s) (f : String)
    (hf : f ∈ s.fileList) :
    pyLookup (roundTrip s).viewedValues f = pyLookup s.viewedValues f ∧
    pyLookup (roundTrip s).rotation f = pyLookup s.rotation f ∧
    pyLookup (roundTrip s).notes f = pyLookup s.notes f ∧
    (∀ k, storedRadio (roundTrip s) f k = storedRadio s f k) ∧
    (pyLookup s.viewedValues f ≠ some Viewed.failed →
        ∀ k, storedCheckbox (roundTrip s) f k = storedCheckbox s f k) ∧
    (pyLookup s.viewedValues f = some Viewed.failed →
        ∀ k ∈ s.config.checkboxes,
          storedCheckbox (roundTrip s) f k = some CheckVal.fail) ∧
    (∀ finding, storedBoxes (roundTrip s) f finding = storedBoxes s f finding) := by
  obtain ⟨hndl, hndc, hc0, hcN, hsync, hrec⟩ := hv
  obtain ⟨hvS, hrS, hnS, hcS, hcU, hcSub, hcSup, hraS, hraU, hbS, hbU⟩ :=
    hrec f hf
  obtain ⟨vv, hvv⟩ := Option.isSome_iff_exists.mp hvS
  obtain ⟨rv, hrv⟩ := Option.isSome_iff_exists.mp hrS
  obtain ⟨nv, hnv⟩ := Option.isSome_iff_exists.mp hnS
  obtain ⟨m, hm⟩ := Option.isSome_iff_exists.mp hcS
  obtain ⟨r0, hr0⟩ := Option.isSome_iff_exists.mp hraS
  obtain ⟨bb, hbb⟩ := Option.isSome_iff_exists.mp hbS
  rw [hm] at hcU hcSub hcSup
  rw [hr0] at hraU
  rw [hbb] at hbU
  simp only [Option.getD_some] at hcU hcSub hcSup hraU hbU
  have hev : pyGetD s.viewedValues f .notViewed = vv := by
    unfold pyGetD; rw [hvv]; rfl
  have hrg : pyGetD s.rotation f 0 = rv := by
    unfold pyGetD; rw [hrv]; rfl
  have hng : pyGetD s.notes f "" = nv := by
    unfold pyGetD; rw [hnv]; rfl
  have hmg : pyGetD s.checkboxValues f [] = m := by
    unfold pyGetD; rw [hm]; rfl
  have hr0g : pyGetD s.radiobuttonValues f [] = r0 := by
    unfold pyGetD; rw [hr0]; rfl
  have hbbs : pyLookup (pySet s.bboxes s.currentFile s.viewRectItems) f
      = pyLookup s.bboxes f := by
    by_cases hfc : f = s.currentFile
    · rw [hfc, pyLookup_pySet_self]
      exact hsync.symm
    · exact pyLookup_pySet_other _ _ _ _ hfc
  have hbbg : pyGetD (pySet s.bboxes s.currentFile s.viewRectItems) f [] = bb := by
    unfold pyGetD; rw [hbbs, hbb]; rfl
  have hnd : ((saveJson s).2.files.map FileEntry.filename).Nodup := by
    rw [saved_filenames]; exact hndl
  have he : buildFileEntry (syncBboxes s) f ∈ (saveJson s).2.files :=
    List.mem_map_of_mem _ hf
  have H := loadFromJson_lookup (saveJson s).2 hnd _ he
  rw [(buildFileEntry_fields _ f).1, (buildFileEntry_fields _ f).2.1,
    (buildFileEntry_fields _ f).2.2.1, (buildFileEntry_fields _ f).2.2.2.1,
    (buildFileEntry_fields _ f).2.2.2.2.1, (buildFileEntry_fields _ f).2.2.2.2.2,
    buildFileEntry_checkboxes_eq] at H
  simp only [syncBboxes] at H
  rw [hev, hrg, hng, hmg, hr0g, hbbg] at H
  obtain ⟨Hv, Hr, Hn, Hc, Hra, Hb⟩ := H
  refine ⟨?_, ?_, ?_, ?_, ?_, ?_, ?_⟩
  · show pyLookup (loadFromJson (saveJson s).2).viewedValues f = _
    rw [Hv, hvv]
  · show pyLookup (loadFromJson (saveJson s).2).rotation f = _
    rw [Hr, hrv]
  · show pyLookup (loadFromJson (saveJson s).2).notes f = _
    rw [Hn, hnv]
  · -- radio-button values
    intro k
    unfold storedRadio
    rw [hr0]
    by_cases hcase : r0 = []
    · subst hcase
      rw [show rebuild [] ([] : PyDict (Option Int)) = [] from rfl] at Hra
      rw [show (loadFromJson (saveJson s).2).radiobuttonValues
            = (roundTrip s).radiobuttonValues from rfl] at Hra
      rw [Hra]
      rfl
    · have hne : ¬ (rebuild [] r0).isEmpty = true := by
        intro hh
        exact rebuild_nil_ne_nil r0 hcase (List.isEmpty_iff.mp hh)
      rw [if_neg hne] at Hra
      rw [show (loadFromJson (saveJson s).2).radiobuttonValues
            = (roundTrip s).radiobuttonValues from rfl] at Hra
      rw [Hra]
      show pyLookup (rebuild [] (rebuild [] r0)) k = pyLookup r0 k
      have hu1 : UniqKeys (rebuild [] r0) :=
        uniqKeys_rebuild [] r0 List.nodup_nil
      rw [pyLookup_rebuild _ _ hu1 k, pyLookup_rebuild _ _ hraU k]
      cases pyLookup r0 k <;> rfl
  · -- checkbox values, record not Failed
    intro hnf k
    have hvvne : ¬ vv = Viewed.failed := fun hh => hnf (by rw [hvv, hh])
    rw [if_neg hvvne] at Hc
    unfold storedCheckbox
    rw [hm]
    cases hcfg : s.config.checkboxes with
    | nil =>
        rw [hcfg] at Hc
        rw [show (loadFromJson (saveJson s).2).checkboxValues
              = (roundTrip s).checkboxValues from rfl] at Hc
        simp only [List.map_nil, List.isEmpty_nil, if_pos] at Hc
        rw [Hc]
        have hknm : k ∉ m.map Prod.fst := by
          intro hmem
          have := hcSub k hmem
          rw [hcfg] at this
          cases this
        rw [show ((none : Option (PyDict CheckVal)).bind
              (fun m => pyLookup m k)) = none from rfl]
        rw [show ((some m).bind (fun mm => pyLookup mm k))
              = pyLookup m k from rfl]
        rw [pyLookup_eq_none_of_not_mem m k hknm]
    | cons c0 rest =>
        have hcne : ¬ ((s.config.checkboxes.map
            (fun c => (c, pyGetD m c CheckVal.boolFalse))).isEmpty = true) := by
          rw [hcfg]; simp
        rw [if_neg hcne] at Hc
        rw [show (loadFromJson (saveJson s).2).checkboxValues
              = (roundTrip s).checkboxValues from rfl] at Hc
        rw [Hc]
        show pyLookup (rebuild [] (s.config.checkboxes.map
            (fun c => (c, pyGetD m c CheckVal.boolFalse)))) k = pyLookup m k
        have huE : UniqKeys (s.config.checkboxes.map
            (fun c => (c, pyGetD m c CheckVal.boolFalse))) := by
          unfold UniqKeys
          rw [keys_map_built]
          exact hndc
        rw [pyLookup_rebuild _ _ huE k]
        by_cases hkmem : k ∈ s.config.checkboxes
        · rw [pyLookup_map_keys _ _ _ hkmem]
          have hkm : k ∈ m.map Prod.fst := hcSup k hkmem
          obtain ⟨w, hw⟩ := Option.isSome_iff_exists.mp
            (pyLookup_isSome_of_mem m k hkm)
          rw [hw]
          show some (pyGetD m k CheckVal.boolFalse) = some w
          unfold pyGetD
          rw [hw]
          rfl
        · have hke : pyLookup (s.config.checkboxes.map
              (fun c => (c, pyGetD m c CheckVal.boolFalse))) k = none := by
            apply pyLookup_eq_none_of_not_mem
            rw [keys_map_built]
            exact hkmem
          have hkm : pyLookup m k = none := by
            apply pyLookup_eq_none_of_not_mem
            intro hmem
            exact hkmem (hcSub k hmem)
          rw [hke, hkm]
          rfl
  · -- checkbox values, record Failed
    intro hfail k hkmem
    have hvvf : vv = Viewed.failed := by
      rw [hvv] at hfail
      exact Option.some.injEq .. ▸ hfail
    rw [if_pos hvvf] at Hc
    have hcne : ¬ ((s.config.checkboxes.map
        (fun c => (c, CheckVal.fail))).isEmpty = true) := by
      cases hcfg : s.config.checkboxes with
      | nil => rw [hcfg] at hkmem; cases hkmem
      | cons c0 rest => simp
    rw [if_neg hcne] at Hc
    unfold storedCheckbox
    rw [show (loadFromJson (saveJson s).2).checkboxValues
          = (roundTrip s).checkboxValues from rfl] at Hc
    rw [Hc]
    show pyLookup (rebuild [] (s.config.checkboxes.map
        (fun c => (c, CheckVal.fail)))) k = some CheckVal.fail
    have huE : UniqKeys (s.config.checkboxes.map
        (fun c => (c, CheckVal.fail))) := by
      unfold UniqKeys
      rw [keys_map_built]
      exact hndc
    rw [pyLookup_rebuild _ _ huE k, pyLookup_map_keys _ _ _ hkmem]
    rfl
  · -- bounding boxes
    intro finding
    unfold storedBoxes
    rw [hbb]
    rw [show (loadFromJson (saveJson s).2).bboxes
          = (roundTrip s).bboxes from rfl] at Hb
    rw [Hb]
    show (pyLookup (addBoxes [] (addBoxes [] bb)) finding).getD []
        = (pyLookup bb finding).getD []
    have hu2 : UniqKeys (addBoxes [] bb) :=
      uniqKeys_addBoxes [] bb List.nodup_nil
    rw [pyLookup_addBoxes (addBoxes [] bb) [] hu2 (fun k _ => rfl) finding]
    rw [pyLookup_addBoxes bb [] hbU (fun k _ => rfl) finding]
    cases hl : pyLookup bb finding with
    | none => rfl
    | some l =>
        dsimp only
        by_cases hle : l.isEmpty = true
        · rw [if_pos hle]
          have : l = [] := List.isEmpty_iff.mp hle
          subst this
          rfl
        · rw [if_neg hle]
          dsimp only
          rw [if_neg hle]

/-- Witness for C1 (amended): the valid one-image session `failEx`
round-trips its viewed flag exactly. -/
theorem C1_witness :
    pyLookup (roundTrip failEx).viewedValues "a.png"
      = pyLookup failEx.viewedValues "a.png" :=
  (C1_roundtrip failEx (by decide) "a.png" (by decide)).1

end SpeedyQC
